import Mathlib

/-!
Verification of the a-share market tracker pipeline (rule engine, state
manager, notification service) against its specification.  The Python source
in `src/` is shallowly embedded: floats and timestamps become `ℚ`, dicts with
defaulting `.get` become `Option` fields read through `Option.getD`, the wall
clock `time.time()` becomes an explicit `now` parameter, and fallible
operations (negative list indexing, division) return `Except`.
-/

namespace AShare

/-- `EventType` enum from src/src/models.py. -/
inductive EventType
  | anomaly_detection
deriving DecidableEq

/-- `EventSubtype` enum from src/src/models.py. -/
inductive EventSubtype
  | sentiment_turning_up
  | sentiment_turning_down
  | flow_reversal
  | flow_withdrawal
  | theme_emergence
  | theme_exhaustion
deriving DecidableEq

/-- `EventLevel` enum from src/src/models.py. -/
inductive EventLevel
  | low
  | medium
  | high
deriving DecidableEq

/-- `MarketStatus` enum from src/src/models.py. -/
inductive MarketStatus
  | red
  | yellow
  | green
deriving DecidableEq

/-- `NotificationFormat` enum from src/src/models.py. -/
inductive NotificationFormat
  | flash
  | card
  | alert
deriving DecidableEq

/-- The `.value` string of an `EventType` member. -/
def EventType.value : EventType → String
  | .anomaly_detection => "anomaly_detection"

/-- The `.value` string of an `EventSubtype` member. -/
def EventSubtype.value : EventSubtype → String
  | .sentiment_turning_up => "sentiment_turning_up"
  | .sentiment_turning_down => "sentiment_turning_down"
  | .flow_reversal => "flow_reversal"
  | .flow_withdrawal => "flow_withdrawal"
  | .theme_emergence => "theme_emergence"
  | .theme_exhaustion => "theme_exhaustion"

/-- The `.value` string of an `EventLevel` member. -/
def EventLevel.value : EventLevel → String
  | .low => "low"
  | .medium => "medium"
  | .high => "high"

/-- The `.value` string of a `MarketStatus` member. -/
def MarketStatus.value : MarketStatus → String
  | .red => "red"
  | .yellow => "yellow"
  | .green => "green"

/-- The `.value` string of a `NotificationFormat` member. -/
def NotificationFormat.value : NotificationFormat → String
  | .flash => "flash"
  | .card => "card"
  | .alert => "alert"

/-- A value stored in an event's diagnostic `data` dict (numbers and strings
occur in src/src/rule_engine.py). -/
inductive DValue
  | num (q : ℚ)
  | str (s : String)
deriving DecidableEq

/-- `Event` dataclass from src/src/models.py. -/
structure Event where
  event_id : String
  timestamp : ℚ
  type : EventType
  subtype : EventSubtype
  level : EventLevel
  data : List (String × DValue)
  description : String
deriving DecidableEq

/-- `MarketState` dataclass from src/src/models.py. -/
structure MarketState where
  timestamp : ℚ
  status : MarketStatus
  sentiment_score : ℚ
  main_driver : String
  summary : String
deriving DecidableEq

/-- `Notification` dataclass from src/src/models.py. -/
structure Notification where
  notification_id : String
  timestamp : ℚ
  format : NotificationFormat
  title : String
  lines : List String
  related_events : List String
deriving DecidableEq

/-! ## State manager (src/src/state_manager.py) -/

/-- The mutable fields of `StateManager`. -/
structure StateManagerState where
  current_state : MarketState
  recent_events : List Event
deriving DecidableEq

/-- The `score_change` accumulation loop in `StateManager.update_state`
(src/src/state_manager.py lines 25-38): an if/elif chain over this cycle's
events, folded left with accumulator starting at 0. -/
def scoreChange (new_events : List Event) : ℚ :=
  new_events.foldl (fun acc event =>
    match event.subtype with
    | .sentiment_turning_up => acc + 10
    | .flow_reversal => acc + 5
    | .theme_emergence => acc + 5
    | .sentiment_turning_down => acc - 10
    | .flow_withdrawal => acc - 10
    | .theme_exhaustion => acc - 5) 0

/-- `StateManager.update_state` (src/src/state_manager.py lines 16-67).
`now` stands for `time.time()`.  Returns the new manager state; the returned
`MarketState` of the Python method is its `current_state` field. -/
def update_state (now : ℚ) (sm : StateManagerState) (new_events : List Event) :
    StateManagerState :=
  let cutoff_time := now - 1800
  let recent := (sm.recent_events.filter (fun e => decide (cutoff_time < e.timestamp)))
      ++ new_events
  let new_score := max 0 (min 100 (sm.current_state.sentiment_score + scoreChange new_events))
  let status : MarketStatus :=
    if new_score ≥ 70 then .green
    else if new_score ≤ 30 then .red
    else .yellow
  let driver_summary : String × String :=
    match new_events.getLast? with
    | some last_event => (last_event.description, "Updated by " ++ last_event.subtype.value)
    | none => (sm.current_state.main_driver, sm.current_state.summary)
  { current_state :=
      { timestamp := now
        status := status
        sentiment_score := new_score
        main_driver := driver_summary.1
        summary := driver_summary.2 }
    recent_events := recent }

/-- The status classification of src/src/state_manager.py lines 42-48, as a
standalone function of the score (the spec's "pure function of score"). -/
def statusOfScore (score : ℚ) : MarketStatus :=
  if score ≥ 70 then .green
  else if score ≤ 30 then .red
  else .yellow

/-- The per-subtype score weight table as the spec states it (claim side). -/
def claimWeight : EventSubtype → ℚ
  | .sentiment_turning_up => 10
  | .flow_reversal => 5
  | .theme_emergence => 5
  | .sentiment_turning_down => -10
  | .flow_withdrawal => -10
  | .theme_exhaustion => -5

/-! ## Rule engine (src/src/rule_engine.py) -/

/-- A market snapshot: the `current_data` / history-entry dict.  Each metric
read by a rule via `.get(key, default)` is an `Option` field; `none` models an
absent key. -/
structure Snapshot where
  volume : Option ℚ := none
  index_change_pct : Option ℚ := none
  north_bound_flow : Option ℚ := none
  limit_down_count : Option ℚ := none
  bomb_rate : Option ℚ := none
  top_sector : Option String := none
  top_sector_change_pct : Option ℚ := none
deriving DecidableEq

/-- Python division, which raises `ZeroDivisionError` on a zero denominator. -/
def pyDiv (a b : ℚ) : Except String ℚ :=
  if b = 0 then .error "ZeroDivisionError" else .ok (a / b)

/-- Python negative indexing `l[-i]` (for `i ≥ 1`), which raises `IndexError`
when `i` exceeds the length. -/
def pyIndexNeg (l : List α) (i : Nat) : Except String α :=
  if i ≤ l.length then
    match l.get? (l.length - i) with
    | some a => .ok a
    | none => .error "IndexError"
  else .error "IndexError"

/-- The `volumes` list of `SentimentTurningUpRule.evaluate`: the Python slice
`history_window[-30:]` mapped through `d.get('volume', 0)`. -/
def trailingVolumes (history_window : List Snapshot) : List ℚ :=
  (history_window.drop (history_window.length - 30)).map (fun d => d.volume.getD 0)

/-- `SentimentTurningUpRule.evaluate` (src/src/rule_engine.py lines 29-61).
`now` stands for `time.time()` and `eid` for the generated uuid id. -/
def sentimentTurningUpEval (now : ℚ) (eid : String) (current_data : Snapshot)
    (history_window : List Snapshot) : Except String (Option Event) :=
  if history_window.isEmpty then .ok none
  else
    let volumes := trailingVolumes history_window
    match (if volumes.isEmpty then .ok 0 else pyDiv volumes.sum (volumes.length : ℚ)) with
    | .error err => .error err
    | .ok avg_vol =>
      let curr_vol := current_data.volume.getD 0
      let index_change := current_data.index_change_pct.getD 0
      if avg_vol > 0 ∧ curr_vol > avg_vol * (13/10) ∧ index_change > 0 then
        match pyDiv (curr_vol - avg_vol) avg_vol with
        | .error err => .error err
        | .ok change_pct =>
          .ok (some
            { event_id := eid
              timestamp := now
              type := .anomaly_detection
              subtype := .sentiment_turning_up
              level := .medium
              data := [("metric", .str "volume_spike"), ("value", .num curr_vol),
                       ("baseline", .num avg_vol), ("change_pct", .num change_pct)]
              description := "Market sentiment turning up: Volume spike with index rise." })
      else .ok none

/-- `SentimentTurningDownRule.evaluate` (src/src/rule_engine.py lines 63-85). -/
def sentimentTurningDownEval (now : ℚ) (eid : String) (current_data : Snapshot)
    (_history_window : List Snapshot) : Except String (Option Event) :=
  let index_change := current_data.index_change_pct.getD 0
  let limit_down := current_data.limit_down_count.getD 0
  let bomb_rate := current_data.bomb_rate.getD 0
  if index_change < 0 ∧ limit_down > 3 ∧ bomb_rate > 30 then
    .ok (some
      { event_id := eid
        timestamp := now
        type := .anomaly_detection
        subtype := .sentiment_turning_down
        level := .high
        data := [("metric", .str "sentiment_drop"), ("limit_down", .num limit_down),
                 ("bomb_rate", .num bomb_rate)]
        description := "Market sentiment turning down: Limit downs increasing." })
  else .ok none

/-- `FlowReversalRule.evaluate` (src/src/rule_engine.py lines 87-112). -/
def flowReversalEval (now : ℚ) (eid : String) (current_data : Snapshot)
    (history_window : List Snapshot) : Except String (Option Event) :=
  if history_window.isEmpty then .ok none
  else
    match pyIndexNeg history_window 1 with
    | .error err => .error err
    | .ok prev =>
      let curr_flow := current_data.north_bound_flow.getD 0
      let prev_flow := prev.north_bound_flow.getD 0
      if curr_flow > 0 ∧ prev_flow < 0 then
        .ok (some
          { event_id := eid
            timestamp := now
            type := .anomaly_detection
            subtype := .flow_reversal
            level := .medium
            data := [("metric", .str "flow_reversal"), ("current", .num curr_flow),
                     ("previous", .num prev_flow)]
            description := "Capital flow reversal: Northbound funds turning positive." })
      else .ok none

/-- `FlowWithdrawalRule.evaluate` (src/src/rule_engine.py lines 114-134). -/
def flowWithdrawalEval (now : ℚ) (eid : String) (current_data : Snapshot)
    (_history_window : List Snapshot) : Except String (Option Event) :=
  let curr_flow := current_data.north_bound_flow.getD 0
  if curr_flow < -10000000 then
    .ok (some
      { event_id := eid
        timestamp := now
        type := .anomaly_detection
        subtype := .flow_withdrawal
        level := .high
        data := [("metric", .str "rapid_outflow"), ("value", .num curr_flow)]
        description := "Significant capital withdrawal detected." })
  else .ok none

/-- `ThemeEmergenceRule.evaluate` (src/src/rule_engine.py lines 136-162). -/
def themeEmergenceEval (now : ℚ) (eid : String) (current_data : Snapshot)
    (history_window : List Snapshot) : Except String (Option Event) :=
  let curr_top_sector := current_data.top_sector.getD ""
  if history_window.isEmpty then .ok none
  else if 15 ≤ history_window.length then
    match pyIndexNeg history_window 15 with
    | .error err => .error err
    | .ok past =>
      let past_top_sector := past.top_sector.getD ""
      if curr_top_sector ≠ past_top_sector ∧ curr_top_sector ≠ "" then
        .ok (some
          { event_id := eid
            timestamp := now
            type := .anomaly_detection
            subtype := .theme_emergence
            level := .medium
            data := [("metric", .str "new_leader"), ("sector", .str curr_top_sector),
                     ("old_leader", .str past_top_sector)]
            description := "New market theme emerging: " ++ curr_top_sector ++ "." })
      else .ok none
  else .ok none

/-- `ThemeExhaustionRule.evaluate` (src/src/rule_engine.py lines 164-183). -/
def themeExhaustionEval (now : ℚ) (eid : String) (current_data : Snapshot)
    (_history_window : List Snapshot) : Except String (Option Event) :=
  let curr_top_sector_change := current_data.top_sector_change_pct.getD 0
  if curr_top_sector_change < -2 then
    .ok (some
      { event_id := eid
        timestamp := now
        type := .anomaly_detection
        subtype := .theme_exhaustion
        level := .medium
        data := [("metric", .str "sector_drop"), ("value", .num curr_top_sector_change)]
        description := "Leading theme shows signs of exhaustion." })
  else .ok none

/-- The accumulation loop of `RuleEngine.evaluate_all`: append each rule's
event when one is produced, propagating a raised error. -/
def collectEvents : List (Except String (Option Event)) → Except String (List Event)
  | [] => .ok []
  | .error err :: _ => .error err
  | .ok none :: rest => collectEvents rest
  | .ok (some ev) :: rest =>
    match collectEvents rest with
    | .error err => .error err
    | .ok evs => .ok (ev :: evs)

/-- `RuleEngine.evaluate_all` (src/src/rule_engine.py lines 19-25) over the six
rules in the registration order of src/main.py.  `eid` supplies the uuid of
each rule's event. -/
def evaluate_all (now : ℚ) (eid : EventSubtype → String) (current_data : Snapshot)
    (history_window : List Snapshot) : Except String (List Event) :=
  collectEvents
    [sentimentTurningUpEval now (eid .sentiment_turning_up) current_data history_window,
     sentimentTurningDownEval now (eid .sentiment_turning_down) current_data history_window,
     flowReversalEval now (eid .flow_reversal) current_data history_window,
     flowWithdrawalEval now (eid .flow_withdrawal) current_data history_window,
     themeEmergenceEval now (eid .theme_emergence) current_data history_window,
     themeExhaustionEval now (eid .theme_exhaustion) current_data history_window]

/-! ## Notification service (src/src/notification_service.py) -/

/-- The mutable fields of `NotificationService`.  `last_sent_time` is the
dict keyed by `subtype.value` strings; `none` models an absent key, read via
`.get(key, 0)`. -/
structure NotificationServiceState where
  sent_notifications : List Notification
  last_sent_time : String → Option ℚ

/-- Python's `str.upper()` on the ASCII status strings: uppercase every
character. -/
def pyUpper (s : String) : String :=
  String.mk (s.data.map Char.toUpper)

/-- The throttle filter loop of `generate_notifications`
(src/src/notification_service.py lines 17-22): admit an event when more than
1800 seconds passed since its subtype's last admission, updating the map
immediately.  Returns the admitted events in order and the final map. -/
def throttleFilter (now : ℚ) (m : String → Option ℚ) :
    List Event → List Event × (String → Option ℚ)
  | [] => ([], m)
  | event :: rest =>
    let last_time := (m event.subtype.value).getD 0
    if now - last_time > 1800 then
      let m2 : String → Option ℚ :=
        fun k => if k = event.subtype.value then some now else m k
      let p := throttleFilter now m2 rest
      (event :: p.1, p.2)
    else throttleFilter now m rest

/-- `NotificationService.generate_notifications`
(src/src/notification_service.py lines 11-73).  `now` stands for
`time.time()` and `nid` for the generated notification uuid.  Note the
high-priority branch returns before `sent_notifications` is extended. -/
def generate_notifications (now : ℚ) (nid : String) (ns : NotificationServiceState)
    (events : List Event) (market_state : MarketState) :
    NotificationServiceState × List Notification :=
  let p := throttleFilter now ns.last_sent_time events
  let unique_events := p.1
  if unique_events.isEmpty then
    ({ ns with last_sent_time := p.2 }, [])
  else
    let high_priority_events := unique_events.filter (fun e => decide (e.level = .high))
    if ¬ high_priority_events.isEmpty then
      let lines := (high_priority_events.take 3).map (fun e => e.description)
          ++ ["Market Status: " ++ pyUpper market_state.status.value]
      let notif : Notification :=
        { notification_id := nid
          timestamp := now
          format := .alert
          title := "重要市场预警"
          lines := lines
          related_events := high_priority_events.map (fun e => e.event_id) }
      ({ ns with last_sent_time := p.2 }, [notif])
    else if 2 ≤ unique_events.length then
      let lines := (unique_events.take 2).map (fun e => e.description)
          ++ ["Sentiment Score: " ++ toString market_state.sentiment_score]
      let notif : Notification :=
        { notification_id := nid
          timestamp := now
          format := .card
          title := "市场多维信号"
          lines := lines
          related_events := unique_events.map (fun e => e.event_id) }
      ({ ns with last_sent_time := p.2
                 sent_notifications := ns.sent_notifications ++ [notif] }, [notif])
    else
      match unique_events with
      | event :: _ =>
        let notif : Notification :=
          { notification_id := nid
            timestamp := now
            format := .flash
            title := "市场快讯"
            lines := [event.description]
            related_events := [event.event_id] }
        ({ ns with last_sent_time := p.2
                   sent_notifications := ns.sent_notifications ++ [notif] }, [notif])
      | [] => ({ ns with last_sent_time := p.2 }, [])

/-- One full pipeline cycle in the order of src/main.py: rule evaluation, then
state update, then notification generation. -/
def runCycle (now : ℚ) (eid : EventSubtype → String) (nid : String)
    (sm : StateManagerState) (ns : NotificationServiceState)
    (current_data : Snapshot) (history_window : List Snapshot) :
    Except String (List Event × StateManagerState × NotificationServiceState × List Notification) :=
  match evaluate_all now eid current_data history_window with
  | .error err => .error err
  | .ok events =>
    let sm2 := update_state now sm events
    let p := generate_notifications now nid ns events sm2.current_state
    .ok (events, sm2, p.1, p.2)

/-- A snapshot with every metric key made present, holding the neutral default
the rules would substitute for it. -/
def Snapshot.defaulted (s : Snapshot) : Snapshot where
  volume := some (s.volume.getD 0)
  index_change_pct := some (s.index_change_pct.getD 0)
  north_bound_flow := some (s.north_bound_flow.getD 0)
  limit_down_count := some (s.limit_down_count.getD 0)
  bomb_rate := some (s.bomb_rate.getD 0)
  top_sector := some (s.top_sector.getD "")
  top_sector_change_pct := some (s.top_sector_change_pct.getD 0)

/-- Number of admitted events whose subtype key equals `key` (for stating the
throttle claims). -/
def admittedCount (key : String) (es : List Event) : Nat :=
  (es.filter (fun e => decide (e.subtype.value = key))).length

/-! ## Serialization (src/src/models.py) -/

/-- A value of a serialized dict: the `to_dict` methods emit numbers, strings,
string lists and the nested diagnostic dict. -/
inductive JValue
  | num (q : ℚ)
  | str (s : String)
  | strList (l : List String)
  | dict (d : List (String × DValue))
deriving DecidableEq

/-- `Event.to_dict` (src/src/models.py lines 33-42). -/
def Event.to_dict (e : Event) : List (String × JValue) :=
  [("event_id", .str e.event_id),
   ("timestamp", .num e.timestamp),
   ("type", .str e.type.value),
   ("subtype", .str e.subtype.value),
   ("level", .str e.level.value),
   ("data", .dict e.data),
   ("description", .str e.description)]

/-- `MarketState.to_dict` (src/src/models.py lines 57-64). -/
def MarketState.to_dict (s : MarketState) : List (String × JValue) :=
  [("timestamp", .num s.timestamp),
   ("status", .str s.status.value),
   ("sentiment_score", .num s.sentiment_score),
   ("main_driver", .str s.main_driver),
   ("summary", .str s.summary)]

/-- `Notification.to_dict` (src/src/models.py lines 80-88). -/
def Notification.to_dict (n : Notification) : List (String × JValue) :=
  [("notification_id", .str n.notification_id),
   ("timestamp", .num n.timestamp),
   ("format", .str n.format.value),
   ("title", .str n.title),
   ("lines", .strList n.lines),
   ("related_events", .strList n.related_events)]

/-- Read a string field by name from a serialized dict. -/
def dictStr (d : List (String × JValue)) (k : String) : Option String :=
  match d.lookup k with
  | some (.str s) => some s
  | _ => none

/-- Read a numeric field by name from a serialized dict. -/
def dictNum (d : List (String × JValue)) (k : String) : Option ℚ :=
  match d.lookup k with
  | some (.num q) => some q
  | _ => none

/-- Read a string-list field by name from a serialized dict. -/
def dictStrList (d : List (String × JValue)) (k : String) : Option (List String) :=
  match d.lookup k with
  | some (.strList l) => some l
  | _ => none

/-- Read the nested diagnostic dict field by name from a serialized dict. -/
def dictData (d : List (String × JValue)) (k : String) : Option (List (String × DValue)) :=
  match d.lookup k with
  | some (.dict x) => some x
  | _ => none

/-- Parse an `EventType` back from its `.value` string. -/
def EventType.ofValue : String → Option EventType
  | "anomaly_detection" => some .anomaly_detection
  | _ => none

/-- Parse an `EventSubtype` back from its `.value` string. -/
def EventSubtype.ofValue : String → Option EventSubtype
  | "sentiment_turning_up" => some .sentiment_turning_up
  | "sentiment_turning_down" => some .sentiment_turning_down
  | "flow_reversal" => some .flow_reversal
  | "flow_withdrawal" => some .flow_withdrawal
  | "theme_emergence" => some .theme_emergence
  | "theme_exhaustion" => some .theme_exhaustion
  | _ => none

/-- Parse an `EventLevel` back from its `.value` string. -/
def EventLevel.ofValue : String → Option EventLevel
  | "low" => some .low
  | "medium" => some .medium
  | "high" => some .high
  | _ => none

/-- Parse a `MarketStatus` back from its `.value` string. -/
def MarketStatus.ofValue : String → Option MarketStatus
  | "red" => some .red
  | "yellow" => some .yellow
  | "green" => some .green
  | _ => none

/-- Parse a `NotificationFormat` back from its `.value` string. -/
def NotificationFormat.ofValue : String → Option NotificationFormat
  | "flash" => some .flash
  | "card" => some .card
  | "alert" => some .alert
  | _ => none

/-- Modelled from the spec: src/src/models.py defines only the `to_dict`
serializers; the spec's round-trip property ("serialize ... and back without
loss") presumes an inverse deserializer, which is absent from the repository.
This reads every `Event` field back by its name. -/
def Event.from_dict (d : List (String × JValue)) : Option Event := do
  let event_id ← dictStr d "event_id"
  let timestamp ← dictNum d "timestamp"
  let ty ← EventType.ofValue (← dictStr d "type")
  let subtype ← EventSubtype.ofValue (← dictStr d "subtype")
  let level ← EventLevel.ofValue (← dictStr d "level")
  let data ← dictData d "data"
  let description ← dictStr d "description"
  pure { event_id := event_id, timestamp := timestamp, type := ty, subtype := subtype,
         level := level, data := data, description := description }

/-- Modelled from the spec: inverse of `MarketState.to_dict`, absent from the
repository, required by the spec's round-trip property. -/
def MarketState.from_dict (d : List (String × JValue)) : Option MarketState := do
  let timestamp ← dictNum d "timestamp"
  let status ← MarketStatus.ofValue (← dictStr d "status")
  let sentiment_score ← dictNum d "sentiment_score"
  let main_driver ← dictStr d "main_driver"
  let summary ← dictStr d "summary"
  pure { timestamp := timestamp, status := status, sentiment_score := sentiment_score,
         main_driver := main_driver, summary := summary }

/-- Modelled from the spec: inverse of `Notification.to_dict`, absent from the
repository, required by the spec's round-trip property. -/
def Notification.from_dict (d : List (String × JValue)) : Option Notification := do
  let notification_id ← dictStr d "notification_id"
  let timestamp ← dictNum d "timestamp"
  let format ← NotificationFormat.ofValue (← dictStr d "format")
  let title ← dictStr d "title"
  let lines ← dictStrList d "lines"
  let related_events ← dictStrList d "related_events"
  pure { notification_id := notification_id, timestamp := timestamp, format := format,
         title := title, lines := lines, related_events := related_events }

/-! ## Concrete sample inputs -/

/-- The snapshot of the spec's turning-up scenario: volume 1,400,000 and
index change +0.5, all other keys absent. -/
def snapVolumeSpike : Snapshot :=
  { volume := some 1400000, index_change_pct := some (1/2) }

/-- A one-entry history window whose volume baseline is 1,000,000. -/
def histBaseline : List Snapshot := [{ volume := some 1000000 }]

/-- A one-entry history window whose only volume is zero (average volume 0). -/
def histZeroVolume : List Snapshot := [{ volume := some 0 }]

/-- The event `sentimentTurningUpEval` produces from `snapVolumeSpike` over
`histBaseline` at time 1000 with id "evt_c8". -/
def eventVolumeSpike : Event :=
  { event_id := "evt_c8", timestamp := 1000, type := .anomaly_detection,
    subtype := .sentiment_turning_up, level := .medium,
    data := [("metric", .str "volume_spike"), ("value", .num 1400000),
             ("baseline", .num 1000000), ("change_pct", .num (2/5))],
    description := "Market sentiment turning up: Volume spike with index rise." }

/-- A sample high-severity event (a flow withdrawal). -/
def evHigh : Event :=
  { event_id := "evt_h", timestamp := 0, type := .anomaly_detection,
    subtype := .flow_withdrawal, level := .high, data := [],
    description := "Significant capital withdrawal detected." }

/-- A sample medium-severity event (a flow reversal). -/
def evMedium : Event :=
  { event_id := "evt_m", timestamp := 0, type := .anomaly_detection,
    subtype := .flow_reversal, level := .medium, data := [],
    description := "Capital flow reversal: Northbound funds turning positive." }

/-- A fresh notification service: empty log, no throttle entries. -/
def nsFresh : NotificationServiceState :=
  { sent_notifications := [], last_sent_time := fun _ => none }

/-- A sample market state with an in-range score. -/
def msSample : MarketState :=
  { timestamp := 0, status := .green, sentiment_score := 80,
    main_driver := "d", summary := "s" }

/-! ## State manager theorems -/

theorem scoreChange_eq_sum (events : List Event) :
    scoreChange events = (events.map fun e => claimWeight e.subtype).sum := by
  have key : ∀ (l : List Event) (acc : ℚ),
      (l.foldl (fun acc event =>
        match event.subtype with
        | .sentiment_turning_up => acc + 10
        | .flow_reversal => acc + 5
        | .theme_emergence => acc + 5
        | .sentiment_turning_down => acc - 10
        | .flow_withdrawal => acc - 10
        | .theme_exhaustion => acc - 5) acc)
        = acc + (l.map fun e => claimWeight e.subtype).sum := by
    intro l
    induction l with
    | nil => intro acc; simp
    | cons e rest ih =>
      intro acc
      simp only [List.foldl_cons, List.map_cons, List.sum_cons, ih]
      cases hs : e.subtype <;> simp [claimWeight] <;> ring
  simpa [scoreChange] using key events 0

/-- C1: for every starting manager state and every event list, the sentiment
score of the state returned by `update_state` lies in [0, 100]. -/
theorem C1_score_bounded (now : ℚ) (sm : StateManagerState) (new_events : List Event) :
    0 ≤ (update_state now sm new_events).current_state.sentiment_score
    ∧ (update_state now sm new_events).current_state.sentiment_score ≤ 100 := by
  simp only [update_state]
  constructor
  · exact le_max_left 0 _
  · exact max_le (by norm_num) (min_le_left _ _)

/-- C2: `update_state` computes the score delta as the sum of the fixed
per-subtype weights over this cycle's events, and the new score is
clamp(previous score + delta, 0, 100). -/
theorem C2_score_delta (now : ℚ) (sm : StateManagerState) (new_events : List Event) :
    scoreChange new_events = (new_events.map fun e => claimWeight e.subtype).sum
    ∧ (update_state now sm new_events).current_state.sentiment_score
      = max 0 (min 100 (sm.current_state.sentiment_score
          + (new_events.map fun e => claimWeight e.subtype).sum)) := by
  refine ⟨scoreChange_eq_sum new_events, ?_⟩
  simp only [update_state, scoreChange_eq_sum]

/-- C3: the status of the state returned by `update_state` is a pure function
of its new sentiment score, with score ≥ 70 green, score ≤ 30 red, and every
score strictly between 30 and 70 yellow; in particular 75 → green, 30 → red,
50 → yellow, 70 → green, 31 → yellow. -/
theorem C3_status_of_score :
    (∀ (now : ℚ) (sm : StateManagerState) (new_events : List Event),
      (update_state now sm new_events).current_state.status
        = statusOfScore (update_state now sm new_events).current_state.sentiment_score)
    ∧ (∀ score : ℚ, (70 ≤ score → statusOfScore score = .green)
        ∧ (score ≤ 30 → statusOfScore score = .red)
        ∧ (30 < score → score < 70 → statusOfScore score = .yellow))
    ∧ statusOfScore 75 = .green ∧ statusOfScore 30 = .red ∧ statusOfScore 50 = .yellow
    ∧ statusOfScore 70 = .green ∧ statusOfScore 31 = .yellow := by
  refine ⟨?_, ?_, ?_, ?_, ?_, ?_, ?_⟩
  · intro now sm new_events
    simp only [update_state, statusOfScore]
  · intro score
    refine ⟨?_, ?_, ?_⟩
    · intro h; simp only [statusOfScore, if_pos h]
    · intro h
      have h70 : ¬ (70 ≤ score) := by intro hc; linarith
      simp only [statusOfScore, if_neg h70, if_pos h]
    · intro h30 h70
      have h70n : ¬ (70 ≤ score) := by intro hc; linarith
      have h30n : ¬ (score ≤ 30) := by intro hc; linarith
      simp only [statusOfScore, if_neg h70n, if_neg h30n]
  · simp only [statusOfScore]; norm_num
  · simp only [statusOfScore]; norm_num
  · simp only [statusOfScore]; norm_num
  · simp only [statusOfScore]; norm_num
  · simp only [statusOfScore]; norm_num

/-- Witness for C3: the status function evaluated at the concrete scores the
claim names. -/
theorem C3_status_of_score_witness :
    statusOfScore 75 = .green ∧ statusOfScore 30 = .red ∧ statusOfScore 50 = .yellow := by
  refine ⟨(C3_status_of_score.2.1 75).1 (by norm_num),
          (C3_status_of_score.2.1 30).2.1 (by norm_num),
          (C3_status_of_score.2.1 50).2.2 (by norm_num) (by norm_num)⟩

/-- C7: with an empty event list `update_state` keeps the previous sentiment
score, main driver and summary; with a non-empty list the main driver becomes
the last event's description. -/
theorem C7_frame_effect :
    (∀ (now : ℚ) (sm : StateManagerState),
      0 ≤ sm.current_state.sentiment_score → sm.current_state.sentiment_score ≤ 100 →
      (update_state now sm []).current_state.sentiment_score = sm.current_state.sentiment_score
      ∧ (update_state now sm []).current_state.main_driver = sm.current_state.main_driver
      ∧ (update_state now sm []).current_state.summary = sm.current_state.summary)
    ∧ (∀ (now : ℚ) (sm : StateManagerState) (new_events : List Event) (last_event : Event),
      new_events.getLast? = some last_event →
      (update_state now sm new_events).current_state.main_driver = last_event.description) := by
  constructor
  · intro now sm h0 h100
    refine ⟨?_, ?_, ?_⟩
    · simp only [update_state, scoreChange, List.foldl_nil, add_zero]
      rw [min_eq_right h100, max_eq_right h0]
    · simp only [update_state, List.getLast?]
    · simp only [update_state, List.getLast?]
  · intro now sm new_events last_event h
    simp only [update_state, h]

/-- Witness for C7: a concrete manager state with score 80 is unchanged by an
empty cycle, and a non-empty cycle installs the last event's description. -/
theorem C7_frame_effect_witness :
    ((update_state 5 ⟨msSample, []⟩ []).current_state.sentiment_score
        = (⟨msSample, []⟩ : StateManagerState).current_state.sentiment_score
      ∧ (update_state 5 ⟨msSample, []⟩ []).current_state.main_driver
        = (⟨msSample, []⟩ : StateManagerState).current_state.main_driver
      ∧ (update_state 5 ⟨msSample, []⟩ []).current_state.summary
        = (⟨msSample, []⟩ : StateManagerState).current_state.summary)
    ∧ (update_state 5 ⟨msSample, []⟩ [evHigh]).current_state.main_driver
      = evHigh.description := by
  exact ⟨C7_frame_effect.1 5 ⟨msSample, []⟩ (by norm_num [msSample]) (by norm_num [msSample]),
         C7_frame_effect.2 5 ⟨msSample, []⟩ [evHigh] evHigh rfl⟩

/-! ## Throttle theorems -/

theorem throttleFilter_cons (now : ℚ) (m : String → Option ℚ) (e : Event) (rest : List Event) :
    throttleFilter now m (e :: rest) =
      if 1800 < now - ((m e.subtype.value).getD 0) then
        ((e :: (throttleFilter now
            (fun k => if k = e.subtype.value then some now else m k) rest).1),
         (throttleFilter now
            (fun k => if k = e.subtype.value then some now else m k) rest).2)
      else throttleFilter now m rest := by
  simp only [throttleFilter]

theorem admittedCount_cons_pos (key : String) (e : Event) (l : List Event)
    (h : e.subtype.value = key) :
    admittedCount key (e :: l) = admittedCount key l + 1 := by
  simp [admittedCount, List.filter_cons, h, Nat.add_comm]

theorem admittedCount_cons_neg (key : String) (e : Event) (l : List Event)
    (h : ¬ e.subtype.value = key) :
    admittedCount key (e :: l) = admittedCount key l := by
  simp [admittedCount, List.filter_cons, h]

theorem throttleFilter_blocked (now : ℚ) (key : String) :
    ∀ (es : List Event) (m : String → Option ℚ),
      ¬ (1800 < now - ((m key).getD 0)) →
      admittedCount key (throttleFilter now m es).1 = 0
      ∧ (throttleFilter now m es).2 key = m key := by
  intro es
  induction es with
  | nil => intro m _; exact ⟨rfl, rfl⟩
  | cons e rest ih =>
    intro m h
    by_cases hk : e.subtype.value = key
    · have hcond : ¬ (1800 < now - ((m e.subtype.value).getD 0)) := by rwa [hk]
      rw [throttleFilter_cons, if_neg hcond]
      exact ih m h
    · by_cases hcond : 1800 < now - ((m e.subtype.value).getD 0)
      · rw [throttleFilter_cons, if_pos hcond]
        have hm2 : (if key = e.subtype.value then some now else m key) = m key :=
          if_neg (Ne.symm hk)
        have hble : ¬ (1800 < now -
            (((fun k => if k = e.subtype.value then some now else m k) key).getD 0)) := by
          show ¬ (1800 < now - ((if key = e.subtype.value then some now else m key).getD 0))
          rw [hm2]
          exact h
        obtain ⟨hc, hmap⟩ :=
          ih (fun k => if k = e.subtype.value then some now else m k) hble
        refine ⟨?_, ?_⟩
        · rw [admittedCount_cons_neg key e _ hk]
          exact hc
        · rw [hmap]
          exact hm2
      · rw [throttleFilter_cons, if_neg hcond]
        exact ih m h

theorem throttleFilter_count_le_one (now : ℚ) (key : String) :
    ∀ (es : List Event) (m : String → Option ℚ),
      admittedCount key (throttleFilter now m es).1 ≤ 1 := by
  intro es
  induction es with
  | nil => intro m; exact Nat.zero_le 1
  | cons e rest ih =>
    intro m
    by_cases hcond : 1800 < now - ((m e.subtype.value).getD 0)
    · rw [throttleFilter_cons, if_pos hcond]
      by_cases hk : e.subtype.value = key
      · have hble : ¬ (1800 < now -
            (((fun k => if k = e.subtype.value then some now else m k) key).getD 0)) := by
          show ¬ (1800 < now - ((if key = e.subtype.value then some now else m key).getD 0))
          rw [if_pos hk.symm]
          simp only [Option.getD_some, sub_self]
          norm_num
        obtain ⟨hc, _⟩ := throttleFilter_blocked now key rest
          (fun k => if k = e.subtype.value then some now else m k) hble
        rw [admittedCount_cons_pos key e _ hk, hc]
      · rw [admittedCount_cons_neg key e _ hk]
        exact ih _
    · rw [throttleFilter_cons, if_neg hcond]
      exact ih m

theorem throttleFilter_map_key (now : ℚ) (key : String) :
    ∀ (es : List Event) (m : String → Option ℚ),
      (throttleFilter now m es).2 key
        = if 1 ≤ admittedCount key (throttleFilter now m es).1 then some now else m key := by
  intro es
  induction es with
  | nil =>
    intro m
    show m key = if 1 ≤ admittedCount key ([] : List Event) then some now else m key
    rw [if_neg]
    intro hc
    exact absurd hc (by simp [admittedCount])
  | cons e rest ih =>
    intro m
    by_cases hcond : 1800 < now - ((m e.subtype.value).getD 0)
    · rw [throttleFilter_cons, if_pos hcond]
      by_cases hk : e.subtype.value = key
      · have hm2 : (if key = e.subtype.value then some now else m key) = some now :=
          if_pos hk.symm
        have hble : ¬ (1800 < now -
            (((fun k => if k = e.subtype.value then some now else m k) key).getD 0)) := by
          show ¬ (1800 < now - ((if key = e.subtype.value then some now else m key).getD 0))
          rw [hm2]
          simp only [Option.getD_some, sub_self]
          norm_num
        obtain ⟨_, hmap⟩ := throttleFilter_blocked now key rest
          (fun k => if k = e.subtype.value then some now else m k) hble
        rw [hmap, admittedCount_cons_pos key e _ hk, if_pos (Nat.le_add_left 1 _)]
        exact hm2
      · have hm2 : (if key = e.subtype.value then some now else m key) = m key :=
          if_neg (Ne.symm hk)
        rw [admittedCount_cons_neg key e _ hk,
          ih (fun k => if k = e.subtype.value then some now else m k), hm2]
    · rw [throttleFilter_cons, if_neg hcond]
      exact ih m

theorem throttleFilter_first_admitted (now : ℚ) (key : String) :
    ∀ (es : List Event) (m : String → Option ℚ),
      m key = none → 1800 < now → (∃ e ∈ es, e.subtype.value = key) →
      1 ≤ admittedCount key (throttleFilter now m es).1 := by
  intro es
  induction es with
  | nil =>
    intro m _ _ hex
    obtain ⟨e, he, _⟩ := hex
    exact absurd he (List.not_mem_nil e)
  | cons e rest ih =>
    intro m hnone hnow hex
    by_cases hk : e.subtype.value = key
    · have hcond : 1800 < now - ((m e.subtype.value).getD 0) := by
        rw [hk, hnone]
        simpa using hnow
      rw [throttleFilter_cons, if_pos hcond, admittedCount_cons_pos key e _ hk]
      exact Nat.le_add_left 1 _
    · have hex2 : ∃ x ∈ rest, x.subtype.value = key := by
        obtain ⟨x, hx, hxk⟩ := hex
        rcases List.mem_cons.mp hx with hxe | hxr
        · exact absurd (hxe ▸ hxk) hk
        · exact ⟨x, hxr, hxk⟩
      by_cases hcond : 1800 < now - ((m e.subtype.value).getD 0)
      · rw [throttleFilter_cons, if_pos hcond, admittedCount_cons_neg key e _ hk]
        have hm2 : ((fun k => if k = e.subtype.value then some now else m k) key) = none := by
          show (if key = e.subtype.value then some now else m key) = none
          rw [if_neg (Ne.symm hk)]
          exact hnone
        exact ih (fun k => if k = e.subtype.value then some now else m k) hm2 hnow hex2
      · rw [throttleFilter_cons, if_neg hcond]
        exact ih m hnone hnow hex2

/-- C4: an event of a subtype whose key is absent from the throttle map is
admitted at any realistic clock time (> 1800); each call admits at most one
event per subtype key, the admission updating the map at once; and two cycles
run within 1800 seconds of each other admit at most one event of any given
subtype between them. -/
theorem C4_throttle :
    (∀ (now : ℚ) (m : String → Option ℚ) (es : List Event) (key : String),
      m key = none → 1800 < now → (∃ e ∈ es, e.subtype.value = key) →
      1 ≤ admittedCount key (throttleFilter now m es).1)
    ∧ (∀ (now : ℚ) (m : String → Option ℚ) (es : List Event) (key : String),
      admittedCount key (throttleFilter now m es).1 ≤ 1)
    ∧ (∀ (now1 now2 : ℚ) (m : String → Option ℚ) (es1 es2 : List Event) (key : String),
      now1 ≤ now2 → now2 - now1 ≤ 1800 →
      admittedCount key (throttleFilter now1 m es1).1
        + admittedCount key (throttleFilter now2 (throttleFilter now1 m es1).2 es2).1 ≤ 1) := by
  refine ⟨fun now m es key => throttleFilter_first_admitted now key es m,
          fun now m es key => throttleFilter_count_le_one now key es m, ?_⟩
  intro now1 now2 m es1 es2 key _ hgap
  by_cases h1 : 1 ≤ admittedCount key (throttleFilter now1 m es1).1
  · have hmap : (throttleFilter now1 m es1).2 key = some now1 := by
      rw [throttleFilter_map_key, if_pos h1]
    have hblock : ¬ (1800 < now2 - (((throttleFilter now1 m es1).2 key).getD 0)) := by
      rw [hmap]
      simp only [Option.getD_some]
      exact not_lt.mpr hgap
    obtain ⟨hc2, _⟩ := throttleFilter_blocked now2 key es2 _ hblock
    rw [hc2]
    simpa using throttleFilter_count_le_one now1 key es1 m
  · have hc1 : admittedCount key (throttleFilter now1 m es1).1 = 0 := Nat.lt_one_iff.mp (not_le.mp h1)
    rw [hc1]
    simpa using throttleFilter_count_le_one now2 key es2 _

/-- Witness for C4: a fresh throttle map at time 3600 admits a first
flow-withdrawal event, and two cycles 400 seconds apart admit at most one
flow-withdrawal occurrence between them. -/
theorem C4_throttle_witness :
    1 ≤ admittedCount "flow_withdrawal" (throttleFilter 3600 (fun _ => none) [evHigh]).1
    ∧ admittedCount "flow_withdrawal" (throttleFilter 3600 (fun _ => none) [evHigh]).1
      + admittedCount "flow_withdrawal"
          (throttleFilter 4000 (throttleFilter 3600 (fun _ => none) [evHigh]).2 [evHigh]).1 ≤ 1 := by
  constructor
  · exact C4_throttle.1 3600 (fun _ => none) [evHigh] "flow_withdrawal" rfl
      (by norm_num) ⟨evHigh, List.mem_singleton.mpr rfl, rfl⟩
  · exact C4_throttle.2.2 3600 4000 (fun _ => none) [evHigh] [evHigh] "flow_withdrawal"
      (by norm_num) (by norm_num)

/-! ## Notification service theorems -/

/-- C5: when some admitted event of the cycle has high severity,
`generate_notifications` emits exactly one notification, of alert format,
whose lines are the descriptions of up to the first 3 high-severity admitted
events followed by a line stating the current market status — no card or
flash notification is emitted that cycle. -/
theorem C5_alert_precedence (now : ℚ) (nid : String) (ns : NotificationServiceState)
    (events : List Event) (market_state : MarketState)
    (h : ∃ e ∈ (throttleFilter now ns.last_sent_time events).1, e.level = EventLevel.high) :
    (generate_notifications now nid ns events market_state).2 =
      [{ notification_id := nid
         timestamp := now
         format := .alert
         title := "重要市场预警"
         lines := (((throttleFilter now ns.last_sent_time events).1.filter
             (fun e => decide (e.level = EventLevel.high))).take 3).map (fun e => e.description)
           ++ ["Market Status: " ++ pyUpper market_state.status.value]
         related_events := ((throttleFilter now ns.last_sent_time events).1.filter
             (fun e => decide (e.level = EventLevel.high))).map (fun e => e.event_id) }] := by
  obtain ⟨e, he, hl⟩ := h
  have hne : ¬ ((throttleFilter now ns.last_sent_time events).1.isEmpty = true) := by
    simp [List.isEmpty_iff, List.ne_nil_of_mem he]
  have hmem : e ∈ (throttleFilter now ns.last_sent_time events).1.filter
      (fun e => decide (e.level = EventLevel.high)) :=
    List.mem_filter.mpr ⟨he, by simp [hl]⟩
  have hfe : ¬ (((throttleFilter now ns.last_sent_time events).1.filter
      (fun e => decide (e.level = EventLevel.high))).isEmpty = true) := by
    simp [List.isEmpty_iff, List.ne_nil_of_mem hmem]
  simp only [generate_notifications, if_neg hne, if_pos hfe]

/-- Witness for C5: a cycle admitting one high and one medium event on a
fresh service emits exactly the one alert notification. -/
theorem C5_alert_precedence_witness :
    (generate_notifications 3600 "n1" nsFresh [evHigh, evMedium] msSample).2 =
      [{ notification_id := "n1"
         timestamp := 3600
         format := .alert
         title := "重要市场预警"
         lines := (((throttleFilter 3600 nsFresh.last_sent_time [evHigh, evMedium]).1.filter
             (fun e => decide (e.level = EventLevel.high))).take 3).map (fun e => e.description)
           ++ ["Market Status: " ++ pyUpper msSample.status.value]
         related_events := ((throttleFilter 3600 nsFresh.last_sent_time [evHigh, evMedium]).1.filter
             (fun e => decide (e.level = EventLevel.high))).map (fun e => e.event_id) }] :=
  C5_alert_precedence 3600 "n1" nsFresh [evHigh, evMedium] msSample
    ⟨evHigh, by with_unfolding_all decide, rfl⟩

/-! ## Turning-up rule scenario theorems -/

/-- Counterexample to C8 as stated: with an *empty* history window the rule
returns no event at all (the guard at src/src/rule_engine.py line 37 fires
before any volume comparison), so the claimed `sentiment_turning_up` emission
for snapshot{volume=1,400,000, index_change_pct=0.5} over empty history does
not happen. -/
theorem C8_empty_history_counterexample :
    sentimentTurningUpEval 1000 "evt_c8" snapVolumeSpike [] = .ok none := rfl

/-- C8 (amended): with a one-entry history window of volume 1,000,000
(average-volume baseline 1,000,000) and current snapshot volume=1,400,000,
index_change_pct=0.5, the rule emits a `sentiment_turning_up` event
(1,400,000 > 1.3 × 1,000,000 and the index change is positive). -/
theorem C8_volume_spike_fires :
    sentimentTurningUpEval 1000 "evt_c8" snapVolumeSpike histBaseline
      = .ok (some eventVolumeSpike)
    ∧ eventVolumeSpike.subtype = .sentiment_turning_up := by
  exact ⟨by with_unfolding_all rfl, rfl⟩

/-- C9: whenever the history window is empty, or the arithmetic mean of the
volumes over the trailing up-to-30 history entries is not strictly positive,
the turning-up rule returns no event — regardless of the current snapshot. -/
theorem C9_nonpositive_baseline_no_event (now : ℚ) (eid : String)
    (current_data : Snapshot) (history_window : List Snapshot)
    (h : history_window = []
      ∨ (trailingVolumes history_window).sum
          / ((trailingVolumes history_window).length : ℚ) ≤ 0) :
    sentimentTurningUpEval now eid current_data history_window = .ok none := by
  rcases h with h | h
  · subst h
    rfl
  · by_cases hw : history_window.isEmpty = true
    · unfold sentimentTurningUpEval
      rw [if_pos hw]
    · unfold sentimentTurningUpEval
      rw [if_neg hw]
      have hlen : 0 < (trailingVolumes history_window).length := by
        simp only [trailingVolumes, List.length_map, List.length_drop]
        have hpos : 0 < history_window.length :=
          List.length_pos.mpr (by simpa [List.isEmpty_iff] using hw)
        omega
      have hvne : (trailingVolumes history_window).isEmpty = false := by
        rcases hl : trailingVolumes history_window with _ | ⟨a, l⟩
        · rw [hl] at hlen
          simp at hlen
        · rfl
      have hlenQ : ((trailingVolumes history_window).length : ℚ) ≠ 0 :=
        Nat.cast_ne_zero.mpr (Nat.pos_iff_ne_zero.mp hlen)
      simp only [hvne, Bool.false_eq_true, if_false, pyDiv, hlenQ]
      rw [if_neg]
      intro hc
      exact absurd hc.1 (not_lt.mpr h)

/-- Witness for C9: a history window whose only volume is zero gives mean 0,
and the rule stays silent even though the current snapshot has
volume=1,400,000 and a positive index change. -/
theorem C9_nonpositive_baseline_no_event_witness :
    ((trailingVolumes histZeroVolume).sum / ((trailingVolumes histZeroVolume).length : ℚ) ≤ 0)
    ∧ sentimentTurningUpEval 0 "evt_c9" snapVolumeSpike histZeroVolume = .ok none := by
  refine ⟨by with_unfolding_all decide, ?_⟩
  exact C9_nonpositive_baseline_no_event 0 "evt_c9" snapVolumeSpike histZeroVolume
    (Or.inr (by with_unfolding_all decide))

/-! ## Totality and defaulting theorems -/

theorem pyIndexNeg_ok {α : Type} (l : List α) (i : Nat) (h1 : 1 ≤ i) (h2 : i ≤ l.length) :
    ∃ a, pyIndexNeg l i = .ok a := by
  unfold pyIndexNeg
  rw [if_pos h2]
  cases hg : l.get? (l.length - i) with
  | none =>
    have := List.get?_eq_none.mp hg
    omega
  | some a =>
    exact ⟨a, rfl⟩

theorem trailingVolumes_length_pos (hw : List Snapshot) (h : ¬ hw.isEmpty = true) :
    0 < (trailingVolumes hw).length := by
  simp only [trailingVolumes, List.length_map, List.length_drop]
  have hpos : 0 < hw.length := List.length_pos.mpr (by simpa [List.isEmpty_iff] using h)
  omega

theorem trailingVolumes_isEmpty_false (hw : List Snapshot) (h : ¬ hw.isEmpty = true) :
    (trailingVolumes hw).isEmpty = false := by
  have hlen := trailingVolumes_length_pos hw h
  rcases hl : trailingVolumes hw with _ | ⟨a, l⟩
  · rw [hl] at hlen
    simp at hlen
  · rfl

theorem sentimentTurningUpEval_ok (now : ℚ) (eid : String) (c : Snapshot)
    (hw : List Snapshot) : ∃ v, sentimentTurningUpEval now eid c hw = .ok v := by
  by_cases hw0 : hw.isEmpty = true
  · refine ⟨none, ?_⟩
    unfold sentimentTurningUpEval
    rw [if_pos hw0]
  · unfold sentimentTurningUpEval
    rw [if_neg hw0]
    have hvne := trailingVolumes_isEmpty_false hw hw0
    have hlenQ : ((trailingVolumes hw).length : ℚ) ≠ 0 :=
      Nat.cast_ne_zero.mpr (Nat.pos_iff_ne_zero.mp (trailingVolumes_length_pos hw hw0))
    simp only [hvne, Bool.false_eq_true, if_false, pyDiv, hlenQ]
    by_cases hc : (trailingVolumes hw).sum / ((trailingVolumes hw).length : ℚ) > 0
        ∧ c.volume.getD 0 > (trailingVolumes hw).sum / ((trailingVolumes hw).length : ℚ) * (13/10)
        ∧ c.index_change_pct.getD 0 > 0
    · rw [if_pos hc, if_neg (ne_of_gt hc.1)]
      exact ⟨_, rfl⟩
    · rw [if_neg hc]
      exact ⟨none, rfl⟩

theorem sentimentTurningDownEval_ok (now : ℚ) (eid : String) (c : Snapshot)
    (hw : List Snapshot) : ∃ v, sentimentTurningDownEval now eid c hw = .ok v := by
  unfold sentimentTurningDownEval
  by_cases hc : c.index_change_pct.getD 0 < 0 ∧ c.limit_down_count.getD 0 > 3
      ∧ c.bomb_rate.getD 0 > 30
  · rw [if_pos hc]
    exact ⟨_, rfl⟩
  · rw [if_neg hc]
    exact ⟨none, rfl⟩

theorem flowReversalEval_ok (now : ℚ) (eid : String) (c : Snapshot)
    (hw : List Snapshot) : ∃ v, flowReversalEval now eid c hw = .ok v := by
  by_cases hw0 : hw.isEmpty = true
  · refine ⟨none, ?_⟩
    unfold flowReversalEval
    rw [if_pos hw0]
  · unfold flowReversalEval
    rw [if_neg hw0]
    have hpos : 0 < hw.length := List.length_pos.mpr (by simpa [List.isEmpty_iff] using hw0)
    obtain ⟨prev, hprev⟩ := pyIndexNeg_ok hw 1 le_rfl hpos
    rw [hprev]
    dsimp only
    by_cases hc : c.north_bound_flow.getD 0 > 0 ∧ prev.north_bound_flow.getD 0 < 0
    · rw [if_pos hc]
      exact ⟨_, rfl⟩
    · rw [if_neg hc]
      exact ⟨none, rfl⟩

theorem flowWithdrawalEval_ok (now : ℚ) (eid : String) (c : Snapshot)
    (hw : List Snapshot) : ∃ v, flowWithdrawalEval now eid c hw = .ok v := by
  unfold flowWithdrawalEval
  by_cases hc : c.north_bound_flow.getD 0 < -10000000
  · rw [if_pos hc]
    exact ⟨_, rfl⟩
  · rw [if_neg hc]
    exact ⟨none, rfl⟩

theorem themeEmergenceEval_ok (now : ℚ) (eid : String) (c : Snapshot)
    (hw : List Snapshot) : ∃ v, themeEmergenceEval now eid c hw = .ok v := by
  by_cases hw0 : hw.isEmpty = true
  · refine ⟨none, ?_⟩
    unfold themeEmergenceEval
    rw [if_pos hw0]
  · unfold themeEmergenceEval
    rw [if_neg hw0]
    by_cases h15 : 15 ≤ hw.length
    · rw [if_pos h15]
      obtain ⟨past, hpast⟩ := pyIndexNeg_ok hw 15 (by omega) h15
      rw [hpast]
      dsimp only
      by_cases hc : c.top_sector.getD "" ≠ past.top_sector.getD "" ∧ c.top_sector.getD "" ≠ ""
      · rw [if_pos hc]
        exact ⟨_, rfl⟩
      · rw [if_neg hc]
        exact ⟨none, rfl⟩
    · rw [if_neg h15]
      exact ⟨none, rfl⟩

theorem themeExhaustionEval_ok (now : ℚ) (eid : String) (c : Snapshot)
    (hw : List Snapshot) : ∃ v, themeExhaustionEval now eid c hw = .ok v := by
  unfold themeExhaustionEval
  by_cases hc : c.top_sector_change_pct.getD 0 < -2
  · rw [if_pos hc]
    exact ⟨_, rfl⟩
  · rw [if_neg hc]
    exact ⟨none, rfl⟩

theorem collectEvents_ok :
    ∀ (l : List (Except String (Option Event))),
      (∀ x ∈ l, ∃ v, x = .ok v) → ∃ evs, collectEvents l = .ok evs := by
  intro l
  induction l with
  | nil => intro _; exact ⟨[], rfl⟩
  | cons x rest ih =>
    intro h
    obtain ⟨v, hv⟩ := h x (List.mem_cons_self x rest)
    obtain ⟨evs, hevs⟩ := ih (fun y hy => h y (List.mem_cons_of_mem x hy))
    subst hv
    cases v with
    | none => exact ⟨evs, by simpa [collectEvents] using hevs⟩
    | some ev => exact ⟨ev :: evs, by simp [collectEvents, hevs]⟩

theorem evaluate_all_ok (now : ℚ) (eid : EventSubtype → String) (c : Snapshot)
    (hw : List Snapshot) : ∃ evs, evaluate_all now eid c hw = .ok evs := by
  unfold evaluate_all
  apply collectEvents_ok
  intro x hx
  simp only [List.mem_cons, List.not_mem_nil, or_false] at hx
  rcases hx with h | h | h | h | h | h
  · exact h ▸ sentimentTurningUpEval_ok now (eid .sentiment_turning_up) c hw
  · exact h ▸ sentimentTurningDownEval_ok now (eid .sentiment_turning_down) c hw
  · exact h ▸ flowReversalEval_ok now (eid .flow_reversal) c hw
  · exact h ▸ flowWithdrawalEval_ok now (eid .flow_withdrawal) c hw
  · exact h ▸ themeEmergenceEval_ok now (eid .theme_emergence) c hw
  · exact h ▸ themeExhaustionEval_ok now (eid .theme_exhaustion) c hw

theorem pyIndexNeg_map {α β : Type} (l : List α) (f : α → β) (i : Nat) :
    pyIndexNeg (l.map f) i = (pyIndexNeg l i).map f := by
  unfold pyIndexNeg
  rw [List.length_map]
  by_cases h : i ≤ l.length
  · rw [if_pos h, if_pos h]
    simp only [List.get?_eq_getElem?, List.getElem?_map]
    rcases hg : l[l.length - i]? with _ | a <;> simp [Except.map]
  · rw [if_neg h, if_neg h]
    rfl

theorem isEmpty_map_defaulted (hw : List Snapshot) :
    (hw.map Snapshot.defaulted).isEmpty = hw.isEmpty := by
  cases hw <;> rfl

theorem trailingVolumes_map_defaulted (hw : List Snapshot) :
    trailingVolumes (hw.map Snapshot.defaulted) = trailingVolumes hw := by
  unfold trailingVolumes
  have hfun : ((fun d => d.volume.getD 0) ∘ Snapshot.defaulted)
      = (fun d : Snapshot => d.volume.getD 0) := by
    funext d
    simp [Function.comp, Snapshot.defaulted]
  rw [List.length_map, ← List.map_drop, List.map_map, hfun]

theorem sentimentTurningUpEval_defaulted (now : ℚ) (eid : String) (c : Snapshot)
    (hw : List Snapshot) :
    sentimentTurningUpEval now eid c.defaulted (hw.map Snapshot.defaulted)
      = sentimentTurningUpEval now eid c hw := by
  unfold sentimentTurningUpEval
  rw [isEmpty_map_defaulted, trailingVolumes_map_defaulted]
  simp only [Snapshot.defaulted, Option.getD_some]

theorem sentimentTurningDownEval_defaulted (now : ℚ) (eid : String) (c : Snapshot)
    (hw : List Snapshot) :
    sentimentTurningDownEval now eid c.defaulted (hw.map Snapshot.defaulted)
      = sentimentTurningDownEval now eid c hw := by
  unfold sentimentTurningDownEval
  simp only [Snapshot.defaulted, Option.getD_some]

theorem flowReversalEval_defaulted (now : ℚ) (eid : String) (c : Snapshot)
    (hw : List Snapshot) :
    flowReversalEval now eid c.defaulted (hw.map Snapshot.defaulted)
      = flowReversalEval now eid c hw := by
  unfold flowReversalEval
  rw [isEmpty_map_defaulted, pyIndexNeg_map]
  cases pyIndexNeg hw 1 with
  | error err =>
    simp only [Except.map]
  | ok prev =>
    simp only [Except.map, Snapshot.defaulted, Option.getD_some]

theorem flowWithdrawalEval_defaulted (now : ℚ) (eid : String) (c : Snapshot)
    (hw : List Snapshot) :
    flowWithdrawalEval now eid c.defaulted (hw.map Snapshot.defaulted)
      = flowWithdrawalEval now eid c hw := by
  unfold flowWithdrawalEval
  simp only [Snapshot.defaulted, Option.getD_some]

theorem themeEmergenceEval_defaulted (now : ℚ) (eid : String) (c : Snapshot)
    (hw : List Snapshot) :
    themeEmergenceEval now eid c.defaulted (hw.map Snapshot.defaulted)
      = themeEmergenceEval now eid c hw := by
  unfold themeEmergenceEval
  rw [isEmpty_map_defaulted, List.length_map, pyIndexNeg_map]
  cases pyIndexNeg hw 15 with
  | error err =>
    simp only [Except.map, Snapshot.defaulted, Option.getD_some]
  | ok past =>
    simp only [Except.map, Snapshot.defaulted, Option.getD_some]

theorem themeExhaustionEval_defaulted (now : ℚ) (eid : String) (c : Snapshot)
    (hw : List Snapshot) :
    themeExhaustionEval now eid c.defaulted (hw.map Snapshot.defaulted)
      = themeExhaustionEval now eid c hw := by
  unfold themeExhaustionEval
  simp only [Snapshot.defaulted, Option.getD_some]

/-- C6: the cycle is total — no rule evaluation and no stage raises an error
on any snapshot (missing fields included) and any history, and replacing every
absent metric by its neutral default (zero, or the empty string for the sector
name) does not change what the rules produce. -/
theorem C6_no_failure :
    (∀ (now : ℚ) (eid : EventSubtype → String) (nid : String) (sm : StateManagerState)
        (ns : NotificationServiceState) (current_data : Snapshot)
        (history_window : List Snapshot),
      ∃ out, runCycle now eid nid sm ns current_data history_window = .ok out)
    ∧ (∀ (now : ℚ) (eid : EventSubtype → String) (current_data : Snapshot)
        (history_window : List Snapshot),
      evaluate_all now eid current_data.defaulted (history_window.map Snapshot.defaulted)
        = evaluate_all now eid current_data history_window) := by
  constructor
  · intro now eid nid sm ns current_data history_window
    obtain ⟨evs, hevs⟩ := evaluate_all_ok now eid current_data history_window
    unfold runCycle
    rw [hevs]
    exact ⟨_, rfl⟩
  · intro now eid current_data history_window
    unfold evaluate_all
    rw [sentimentTurningUpEval_defaulted, sentimentTurningDownEval_defaulted,
      flowReversalEval_defaulted, flowWithdrawalEval_defaulted,
      themeEmergenceEval_defaulted, themeExhaustionEval_defaulted]

/-! ## Serialization theorems -/

/-- C10: `Event`, `MarketState` and `Notification` each serialize to a
field-complete dict (every field name present as a key) and deserialize back
from it without loss. -/
theorem C10_serialization_roundtrip :
    (∀ e : Event,
      e.to_dict.map Prod.fst
        = ["event_id", "timestamp", "type", "subtype", "level", "data", "description"]
      ∧ Event.from_dict e.to_dict = some e)
    ∧ (∀ s : MarketState,
      s.to_dict.map Prod.fst
        = ["timestamp", "status", "sentiment_score", "main_driver", "summary"]
      ∧ MarketState.from_dict s.to_dict = some s)
    ∧ (∀ n : Notification,
      n.to_dict.map Prod.fst
        = ["notification_id", "timestamp", "format", "title", "lines", "related_events"]
      ∧ Notification.from_dict n.to_dict = some n) := by
  refine ⟨fun e => ⟨rfl, ?_⟩, fun s => ⟨rfl, ?_⟩, fun n => ⟨rfl, ?_⟩⟩
  · rcases e with ⟨eid, ts, ty, sub, lv, data, desc⟩
    cases ty
    cases sub <;> cases lv <;> rfl
  · rcases s with ⟨ts, st, sc, md, su⟩
    cases st <;> rfl
  · rcases n with ⟨nid, ts, fm, ti, ln, re⟩
    cases fm <;> rfl

end AShare
